import Mathlib

/-
  Shallow embedding of the session, rate-limit, chat-submit and
  authentication logic of the onionai-frontend repository.

  The ambient streamlit st.session_state is modelled as an explicit
  SessionState record threaded through every operation.  Keys that the
  code tests with "in" or reads with .get are Option fields; direct
  attribute reads that the code performs only after guaranteeing the
  key exists are totalized with Option.getD.  External effects
  (uuid.uuid4, the chat HTTP call, the Cognito call) are passed in as
  parameters.  st.experimental_rerun is UI control flow and is
  modelled as a no-op.  Timestamps are integer seconds; a timedelta of
  h hours is h * 3600 seconds.
-/

/-- Message roles used in st.session_state.messages entries. -/
inductive Role where
  | user
  | assistant
deriving DecidableEq, Repr

/-- One entry of st.session_state.messages: a dict with role and content. -/
structure Message where
  role : Role
  content : String
deriving DecidableEq, Repr

/-- The rate-limit relevant fields of Settings (src/utils/config.py),
with their declared defaults 10, 50 and 1. -/
structure Settings where
  ANONYMOUS_RATE_LIMIT : Nat
  AUTHENTICATED_RATE_LIMIT : Nat
  RATE_LIMIT_WINDOW_HOURS : Nat
deriving DecidableEq, Repr

/-- The default Settings values from src/utils/config.py. -/
def defaultSettings : Settings :=
  { ANONYMOUS_RATE_LIMIT := 10
    AUTHENTICATED_RATE_LIMIT := 50
    RATE_LIMIT_WINDOW_HOURS := 1 }

/-- The subset of st.session_state the embedded operations touch.
A field value of none models the key being absent. -/
structure SessionState where
  rate_limit_start : Option Int
  questions_used : Option Nat
  guest_mode : Option Bool
  session_id : Option String
  messages : Option (List Message)
  user_token : Option String
  username : Option String
  refresh_token : Option String
  last_reset_time : Option Int
deriving DecidableEq, Repr

/-- A state in which no session key has been set yet. -/
def empty_state : SessionState :=
  { rate_limit_start := none
    questions_used := none
    guest_mode := none
    session_id := none
    messages := none
    user_token := none
    username := none
    refresh_token := none
    last_reset_time := none }

/-- The questions_used counter as the code reads it (0 when absent). -/
def q_count (s : SessionState) : Nat :=
  s.questions_used.getD 0

/-- Tier-dependent limit selection as written in check_rate_limit:
ANONYMOUS_RATE_LIMIT for guests, AUTHENTICATED_RATE_LIMIT otherwise. -/
def tier_limit (st : Settings) (guest : Bool) : Nat :=
  if guest then st.ANONYMOUS_RATE_LIMIT else st.AUTHENTICATED_RATE_LIMIT

/-- The limit that applies to the tier stored in the state, as read by
increment_rate_limit via st.session_state.get with default True. -/
def active_limit (st : Settings) (s : SessionState) : Nat :=
  tier_limit st (s.guest_mode.getD true)

/-- timedelta(hours = RATE_LIMIT_WINDOW_HOURS) in seconds. -/
def window_duration (st : Settings) : Int :=
  (st.RATE_LIMIT_WINDOW_HOURS : Int) * 3600

/-- check_rate_limit from src/utils/rate_limit.py.  Initializes the
window keys if absent, lazily resets the window when
now - rate_limit_start exceeds the configured duration, and returns
whether questions_used is strictly below the tier limit, together with
the possibly-updated state.  The getD now totalizes a direct attribute
read that the code performs only after the key is guaranteed present. -/
def check_rate_limit (st : Settings) (guest : Bool) (now : Int)
    (s : SessionState) : Bool × SessionState :=
  let s1 :=
    if s.rate_limit_start.isNone then
      { s with rate_limit_start := some now, questions_used := some 0 }
    else s
  let s2 :=
    if now - s1.rate_limit_start.getD now > window_duration st then
      { s1 with rate_limit_start := some now, questions_used := some 0 }
    else s1
  (decide (s2.questions_used.getD 0 < tier_limit st guest), s2)

/-- increment_rate_limit from src/utils/rate_limit.py.  Runs
check_rate_limit with the tier read from the state (get with default
True); on success increments questions_used, otherwise raises
RateLimitError.  The returned state reflects the mutations made by the
check even on the raising path. -/
def increment_rate_limit (st : Settings) (now : Int)
    (s : SessionState) : Except String Unit × SessionState :=
  let r := check_rate_limit st (s.guest_mode.getD true) now s
  if r.1 then
    (Except.ok (), { r.2 with questions_used := some (r.2.questions_used.getD 0 + 1) })
  else
    (Except.error "Rate limit exceeded. Please try again later.", r.2)

/-- get_rate_limit_reset_time from src/utils/rate_limit.py:
rate_limit_start plus the window duration when the key is set. -/
def get_rate_limit_reset_time (st : Settings) (s : SessionState) : Option Int :=
  match s.rate_limit_start with
  | some t0 => some (t0 + window_duration st)
  | none => none

/-- One rate-limit operation of the kinds the claims quantify over:
a check_rate_limit call (with its guest_mode argument and call time)
or an increment_rate_limit call (at a call time). -/
inductive RateOp where
  | check (guest : Bool) (now : Int)
  | increment (now : Int)
deriving DecidableEq, Repr

/-- State transition of a single rate-limit operation.  A raising
increment leaves the counter untouched but keeps the mutations the
embedded check made to the window keys, as the Python globals would. -/
def run_rate_op (st : Settings) (s : SessionState) : RateOp → SessionState
  | RateOp.check g now => (check_rate_limit st g now s).2
  | RateOp.increment now => (increment_rate_limit st now s).2

/-- Run a sequence of increment_rate_limit attempts at the given call
times, counting how many succeed.  A raising attempt does not stop
later attempts: each attempt models one independent reservation call. -/
def run_increments (st : Settings) : List Int → SessionState → Nat × SessionState
  | [], s => (0, s)
  | t :: rest, s =>
    match increment_rate_limit st t s with
    | (Except.ok _, s1) =>
      let r := run_increments st rest s1
      (r.1 + 1, r.2)
    | (Except.error _, s1) => run_increments st rest s1

/-- get_session_id from src/utils/session.py.  Returns the stored id,
creating one from the ambient uuid4 draw (passed as fresh_uuid) when
the key is absent. -/
def get_session_id (fresh_uuid : String) (s : SessionState) : String × SessionState :=
  match s.session_id with
  | none => (fresh_uuid, { s with session_id := some fresh_uuid })
  | some sid => (sid, s)

/-- reset_session from src/utils/session.py: clears messages, draws a
fresh uuid4 session id, zeroes the counter and stamps the reset time. -/
def reset_session (fresh_uuid : String) (now : Int) (s : SessionState) : SessionState :=
  { s with messages := some []
           session_id := some fresh_uuid
           questions_used := some 0
           last_reset_time := some now }

/-- add_message_to_history from src/utils/session.py: initialize the
messages key to the empty list if absent, then append. -/
def add_message_to_history (m : Message) (s : SessionState) : SessionState :=
  { s with messages := some (s.messages.getD [] ++ [m]) }

/-- A sequence of add_message_to_history calls in order. -/
def add_messages (ms : List Message) (s : SessionState) : SessionState :=
  ms.foldl (fun s m => add_message_to_history m s) s

/-- get_current_messages from src/utils/session.py: the messages of
the current chat session, the empty list when the key is absent. -/
def get_current_messages (s : SessionState) : List Message :=
  s.messages.getD []

/-- ChatInterface._update_question_count: initialize questions_used to
0 if absent, then add one. -/
def update_question_count (s : SessionState) : SessionState :=
  { s with questions_used := some (s.questions_used.getD 0 + 1) }

/-- ChatInterface._start_new_chat: clears messages and assigns
session_id the value returned by get_session_id. -/
def start_new_chat (fresh_uuid : String) (s : SessionState) : SessionState :=
  let s1 := { s with messages := some ([] : List Message) }
  let r := get_session_id fresh_uuid s1
  { r.2 with session_id := some r.1 }

/-- ChatInterface._handle_user_input.  Appends the raw prompt as a user
message, evaluates get_session_id (whose side effect lands before the
chat call), then performs the API call whose outcome is passed in
api_result.  On success it appends the assistant message and updates
the question counter; on an exception it only reports the error. -/
def handle_user_input (prompt : String) (guest : Bool)
    (api_result : Except String String)
    (fresh_uuid : String) (s : SessionState) : SessionState :=
  -- guest is forwarded inside the chat call payload, which the
  -- api_result parameter abstracts; it does not affect the state.
  let _ := guest
  let s1 := { s with messages := some (s.messages.getD [] ++ [⟨Role.user, prompt⟩]) }
  let r := get_session_id fresh_uuid s1
  match api_result with
  | Except.ok resp =>
    update_question_count
      { r.2 with messages := some (r.2.messages.getD [] ++ [⟨Role.assistant, resp⟩]) }
  | Except.error _ => r.2

/-- Outcome of the raw HTTP exchange performed by requests.post inside
APIClient.send_message: either a response with a status code and the
parsed response body text, or a raised RequestException with its
message (timeouts included). -/
inductive ApiOutcome where
  | httpResponse (status : Nat) (body : String)
  | requestException (msg : String)
deriving DecidableEq, Repr

/-- The result of APIClient.send_message as seen by its caller: the
returned response text, a raised RateLimitError, or a raised APIError. -/
inductive SendOutcome where
  | ok (resp : String)
  | rateLimit (msg : String)
  | apiErr (msg : String)
deriving DecidableEq, Repr

/-- Substring test used for the timeout check in the except handler. -/
def contains_timeout (m : String) : Bool :=
  decide ((m.toLower.splitOn "timeout").length > 1)

/-- APIClient.send_message from src/services/api_client.py.  A 429
status raises RateLimitError; any other error status makes
raise_for_status raise an HTTPError, which the RequestException
handler converts into a generic APIError; a network-level
RequestException is likewise converted (with a special message for
timeouts).  No branch of this function touches the session state: in
particular _handle_response_error is never invoked by it. -/
def send_message (outcome : ApiOutcome) (s : SessionState) : SendOutcome × SessionState :=
  match outcome with
  | ApiOutcome.httpResponse status body =>
    if status == 429 then
      (SendOutcome.rateLimit "Rate limit exceeded. Please try again later.", s)
    else if 400 <= status then
      -- raise_for_status raises for 4xx and 5xx; the HTTPError string
      -- for such statuses does not contain the word timeout.
      (SendOutcome.apiErr ("Failed to send message: HTTP " ++ toString status), s)
    else
      (SendOutcome.ok body, s)
  | ApiOutcome.requestException m =>
    if contains_timeout m then
      (SendOutcome.apiErr "Request timed out. Please try again.", s)
    else
      (SendOutcome.apiErr ("Failed to send message: " ++ m), s)

/-- APIClient._handle_response_error from src/services/api_client.py.
The helper that maps a 429 to RateLimitError and, on a 401, deletes
the stored user_token before raising APIError.  It is defined on the
client but no method of the repository ever calls it. -/
def handle_response_error (status : Nat) (err_message : String)
    (s : SessionState) : SendOutcome × SessionState :=
  if status == 429 then
    (SendOutcome.rateLimit err_message, s)
  else if status == 401 then
    (SendOutcome.apiErr "Authentication failed. Please log in again.",
     { s with user_token := none })
  else
    (SendOutcome.apiErr ("API Error: " ++ err_message), s)

/-- The dict shape _handle_successful_auth consumes.  The Username key
is present in the dict built by CognitoService.authenticate but absent
from the one built by CognitoService.refresh_token. -/
structure AuthResult where
  AccessToken : String
  Username : Option String
deriving DecidableEq, Repr

/-- AuthenticationManager.logout: deletes the user_token and username
keys (and nothing else), idempotently. -/
def logout (s : SessionState) : SessionState :=
  { s with user_token := none, username := none }

/-- AuthenticationManager._handle_successful_auth: stores the access
token, then reads the Username key of the result dict.  When that key
is absent the read raises KeyError after the token write has already
happened; the Bool records whether the function completed. -/
def handle_successful_auth (r : AuthResult) (s : SessionState) : Bool × SessionState :=
  let s1 := { s with user_token := some r.AccessToken }
  match r.Username with
  | some u => (true, { s1 with username := some u })
  | none => (false, s1)

/-- AuthenticationManager.refresh_token from
src/components/authentication.py.  cognito_result is the outcome of
CognitoService.refresh_token: none when that call raises, otherwise
the returned AccessToken (its dict carries no Username key).  Any
exception inside the try block leads to logout; when no refresh token
is stored nothing happens and False is returned. -/
def refresh_token_op (cognito_result : Option String)
    (s : SessionState) : Bool × SessionState :=
  match s.refresh_token with
  | none => (false, s)
  | some _ =>
    match cognito_result with
    | none => (false, logout s)
    | some tok =>
      let r := handle_successful_auth { AccessToken := tok, Username := none } s
      if r.1 then (true, r.2) else (false, logout r.2)

/-- A guest state with a freshly started window: the shape produced by
the first check of a session (window started at time 0, counter 0). -/
def guest_window_state : SessionState :=
  { empty_state with rate_limit_start := some 0
                     questions_used := some 0
                     guest_mode := some true }

/-- A guest state whose window started at time 0 and has been used
seven times; probed well after the window has elapsed. -/
def expired_window_state : SessionState :=
  { empty_state with rate_limit_start := some 0
                     questions_used := some 7
                     guest_mode := some true }

/-- A mid-conversation guest state used to evaluate the submit path. -/
def chat_state : SessionState :=
  { empty_state with messages := some []
                     questions_used := some 0
                     guest_mode := some true
                     session_id := some "sid-1" }

/-- A state holding an existing conversation, used to evaluate the
New Chat button handler. -/
def hist_state : SessionState :=
  { empty_state with session_id := some "abc"
                     messages := some [{ role := Role.user, content := "old" }] }

/-- A logged-in state holding a full credential triple. -/
def auth_state : SessionState :=
  { empty_state with user_token := some "tok"
                     username := some "alice"
                     refresh_token := some "dead-token" }

/-
  Helper lemmas about the embedded operations.
-/

/-- The boolean a check returns is the comparison evaluated on the
state the check leaves behind. -/
theorem check_fst (st : Settings) (g : Bool) (now : Int) (s : SessionState) :
    (check_rate_limit st g now s).1 =
      decide ((check_rate_limit st g now s).2.questions_used.getD 0 < tier_limit st g) :=
  rfl

/-- A check either leaves the state unchanged or resets the window to
start now with a zero counter (initialization and lazy reset coincide
on this shape). -/
theorem check_state_cases (st : Settings) (g : Bool) (now : Int) (s : SessionState) :
    (check_rate_limit st g now s).2 = s ∨
    (check_rate_limit st g now s).2 =
      { s with rate_limit_start := some now, questions_used := some 0 } := by
  unfold check_rate_limit
  dsimp only
  split_ifs <;> first | exact Or.inl rfl | exact Or.inr rfl

/-- Checks never change the stored tier flag. -/
theorem check_guest (st : Settings) (g : Bool) (now : Int) (s : SessionState) :
    ((check_rate_limit st g now s).2).guest_mode = s.guest_mode := by
  rcases check_state_cases st g now s with h | h <;> rw [h]

/-- Inside a live window a check is pure: it changes nothing and
reports whether the counter is below the tier limit. -/
theorem check_in_window (st : Settings) (g : Bool) (now t0 : Int) (s : SessionState)
    (h0 : s.rate_limit_start = some t0)
    (h1 : ¬(now - t0 > window_duration st)) :
    check_rate_limit st g now s = (decide (q_count s < tier_limit st g), s) := by
  unfold check_rate_limit
  simp [h0, h1, q_count]

/-- Once the window has expired, a check resets it and evaluates the
comparison on the zeroed counter. -/
theorem check_expired (st : Settings) (g : Bool) (now t0 : Int) (s : SessionState)
    (h0 : s.rate_limit_start = some t0)
    (h1 : now - t0 > window_duration st) :
    check_rate_limit st g now s =
      (decide (0 < tier_limit st g),
       { s with rate_limit_start := some now, questions_used := some 0 }) := by
  unfold check_rate_limit
  simp [h0, h1]

/-- Unfolding of increment_rate_limit with its let bindings resolved. -/
theorem increment_def (st : Settings) (now : Int) (s : SessionState) :
    increment_rate_limit st now s =
      (if (check_rate_limit st (s.guest_mode.getD true) now s).1 = true then
        (Except.ok (),
         { (check_rate_limit st (s.guest_mode.getD true) now s).2 with
             questions_used :=
               some ((check_rate_limit st (s.guest_mode.getD true) now s).2.questions_used.getD 0 + 1) })
      else
        (Except.error "Rate limit exceeded. Please try again later.",
         (check_rate_limit st (s.guest_mode.getD true) now s).2)) := by
  unfold increment_rate_limit
  rfl

/-- Inside a live window an increment either bumps the counter (when
under the limit of the stored tier) or raises and changes nothing. -/
theorem increment_in_window (st : Settings) (now t0 : Int) (s : SessionState)
    (h0 : s.rate_limit_start = some t0)
    (h1 : ¬(now - t0 > window_duration st)) :
    increment_rate_limit st now s =
      (if q_count s < active_limit st s then
        (Except.ok (), { s with questions_used := some (q_count s + 1) })
      else
        (Except.error "Rate limit exceeded. Please try again later.", s)) := by
  rw [increment_def st now s, check_in_window st (s.guest_mode.getD true) now t0 s h0 h1]
  by_cases h : q_count s < active_limit st s
  · rw [if_pos h, if_pos]
    · rfl
    · simpa [active_limit] using h
  · rw [if_neg h, if_neg]
    simpa [active_limit] using h

/-- Updating only questions_used keeps the tier limit of the state. -/
theorem active_limit_update (st : Settings) (s : SessionState) (v : Option Nat) :
    active_limit st { s with questions_used := v } = active_limit st s :=
  rfl

/-- A single rate-limit operation preserves the counter-below-limit
invariant of the stored tier. -/
theorem run_rate_op_inv (st : Settings) (op : RateOp) (s : SessionState)
    (h : q_count s ≤ active_limit st s) :
    q_count (run_rate_op st s op) ≤ active_limit st (run_rate_op st s op) := by
  cases op with
  | check g now =>
    show q_count (check_rate_limit st g now s).2 ≤ active_limit st (check_rate_limit st g now s).2
    rcases check_state_cases st g now s with hc | hc <;> rw [hc]
    · exact h
    · simp [q_count]
  | increment now =>
    show q_count (increment_rate_limit st now s).2 ≤ active_limit st (increment_rate_limit st now s).2
    rw [increment_def st now s]
    by_cases hb : (check_rate_limit st (s.guest_mode.getD true) now s).1 = true
    · rw [if_pos hb]
      have hlt : (check_rate_limit st (s.guest_mode.getD true) now s).2.questions_used.getD 0 <
          tier_limit st (s.guest_mode.getD true) := by
        have := check_fst st (s.guest_mode.getD true) now s
        rw [hb] at this
        exact of_decide_eq_true this.symm
      have hguest := check_guest st (s.guest_mode.getD true) now s
      simp only [q_count, active_limit, Option.getD_some]
      have : ({ (check_rate_limit st (s.guest_mode.getD true) now s).2 with
          questions_used := some ((check_rate_limit st (s.guest_mode.getD true) now s).2.questions_used.getD 0 + 1) } :
          SessionState).guest_mode = s.guest_mode := hguest
      rw [this]
      exact hlt
    · rw [if_neg hb]
      rcases check_state_cases st (s.guest_mode.getD true) now s with hc | hc <;> rw [hc]
      · exact h
      · simp [q_count]

/-- Running a list of in-window increment attempts from a state whose
window started at t0: the number of successes is bounded by the
remaining allowance, the counter grows by exactly the successes, and
the window start and tier flag survive untouched. -/
theorem run_increments_spec (st : Settings) (t0 : Int) :
    ∀ (times : List Int) (s : SessionState),
      s.rate_limit_start = some t0 →
      (∀ t ∈ times, ¬(t - t0 > window_duration st)) →
      (run_increments st times s).1 =
          min times.length (active_limit st s - q_count s) ∧
      q_count (run_increments st times s).2 = q_count s + (run_increments st times s).1 ∧
      (run_increments st times s).2.rate_limit_start = some t0 ∧
      (run_increments st times s).2.guest_mode = s.guest_mode := by
  intro times
  induction times with
  | nil =>
    intro s h0 _
    exact ⟨by simp [run_increments], by simp [run_increments], h0, rfl⟩
  | cons t rest ih =>
    intro s h0 hin
    have hint : ¬(t - t0 > window_duration st) := hin t (List.mem_cons_self t rest)
    have hrest : ∀ u ∈ rest, ¬(u - t0 > window_duration st) :=
      fun u hu => hin u (List.mem_cons_of_mem t hu)
    have hrun : run_increments st (t :: rest) s =
        match increment_rate_limit st t s with
        | (Except.ok _, s1) =>
          let r := run_increments st rest s1
          (r.1 + 1, r.2)
        | (Except.error _, s1) => run_increments st rest s1 := rfl
    rw [hrun, increment_in_window st t t0 s h0 hint]
    by_cases hlt : q_count s < active_limit st s
    · rw [if_pos hlt]
      dsimp only
      obtain ⟨ha, hb, hc, hd⟩ :=
        ih { s with questions_used := some (q_count s + 1) } h0 hrest
      have hq : q_count { s with questions_used := some (q_count s + 1) } = q_count s + 1 := rfl
      have hl : active_limit st { s with questions_used := some (q_count s + 1) } =
          active_limit st s := rfl
      rw [hq, hl] at ha
      rw [hq] at hb
      refine ⟨?_, ?_, hc, hd⟩
      · rw [ha, List.length_cons]
        omega
      · rw [hb]
        omega
    · rw [if_neg hlt]
      dsimp only
      obtain ⟨ha, hb, hc, hd⟩ := ih s h0 hrest
      refine ⟨?_, ?_, hc, hd⟩
      · rw [ha, List.length_cons]
        omega
      · exact hb

/-
  Claim theorems.
-/

/-- C1: for every sequence of rate-limit check-and-increment
operations (checks via check_rate_limit, increments via
increment_rate_limit), starting from any state whose questions-used
counter is within the limit of its stored tier, the counter satisfies
count <= limit after the whole sequence — and hence, since the
sequence is arbitrary, after every operation of any sequence. -/
theorem rate_limit_count_invariant (st : Settings) (ops : List RateOp) (s : SessionState)
    (h : q_count s ≤ active_limit st s) :
    q_count (ops.foldl (run_rate_op st) s) ≤
      active_limit st (ops.foldl (run_rate_op st) s) := by
  induction ops generalizing s with
  | nil => exact h
  | cons op rest ih =>
    rw [List.foldl_cons]
    exact ih (run_rate_op st s op) (run_rate_op_inv st op s h)

/-- Witness for C1: a concrete run of one check and two increments
from an uninitialized guest state under the default settings. -/
theorem rate_limit_count_invariant_witness :
    q_count empty_state ≤ active_limit defaultSettings empty_state ∧
    q_count ([RateOp.check true 0, RateOp.increment 10, RateOp.increment 20].foldl
        (run_rate_op defaultSettings) empty_state) ≤
      active_limit defaultSettings
        ([RateOp.check true 0, RateOp.increment 10, RateOp.increment 20].foldl
          (run_rate_op defaultSettings) empty_state) :=
  ⟨by decide,
   rate_limit_count_invariant defaultSettings
     [RateOp.check true 0, RateOp.increment 10, RateOp.increment 20] empty_state (by decide)⟩

/-- C2: from a window state with a zero counter, a sequence of
increment attempts all falling inside the window yields exactly
min (attempts, limit) successful reservations (so exactly limit once
attempts exceed it, with the attempt after the limit-th denied, as the
last conjunct states for any at-limit state); any in-window check with
count < limit succeeds; and the reported reset time is the window
start plus the window duration. -/
theorem exact_limit_reservations (st : Settings) (t0 : Int) (times : List Int)
    (s : SessionState)
    (h0 : s.rate_limit_start = some t0)
    (h1 : s.questions_used = some 0)
    (h2 : ∀ t ∈ times, ¬(t - t0 > window_duration st)) :
    (run_increments st times s).1 = min times.length (active_limit st s) ∧
    get_rate_limit_reset_time st (run_increments st times s).2 =
      some (t0 + window_duration st) ∧
    (∀ (g : Bool) (now : Int) (u : Nat) (s2 : SessionState),
      s2.rate_limit_start = some t0 → ¬(now - t0 > window_duration st) →
      s2.questions_used = some u → u < tier_limit st g →
      (check_rate_limit st g now s2).1 = true) ∧
    (∀ (now : Int) (s2 : SessionState),
      s2.rate_limit_start = some t0 → ¬(now - t0 > window_duration st) →
      s2.questions_used = some (active_limit st s2) →
      increment_rate_limit st now s2 =
        (Except.error "Rate limit exceeded. Please try again later.", s2)) := by
  obtain ⟨ha, hb, hc, hd⟩ := run_increments_spec st t0 times s h0 h2
  have hq0 : q_count s = 0 := by simp [q_count, h1]
  refine ⟨?_, ?_, ?_, ?_⟩
  · rw [ha, hq0, Nat.sub_zero]
  · simp [get_rate_limit_reset_time, hc]
  · intro g now u s2 e0 e1 e2 e3
    rw [check_in_window st g now t0 s2 e0 e1]
    simp [q_count, e2, e3]
  · intro now s2 e0 e1 e2
    rw [increment_in_window st now t0 s2 e0 e1, if_neg]
    simp [q_count, e2]

/-- Witness for C2: eleven in-window attempts against the default
guest limit of ten, from a fresh guest window. -/
theorem exact_limit_reservations_witness :
    guest_window_state.rate_limit_start = some 0 ∧
    guest_window_state.questions_used = some 0 ∧
    (∀ t ∈ List.replicate 11 (100 : Int), ¬(t - 0 > window_duration defaultSettings)) ∧
    ((run_increments defaultSettings (List.replicate 11 100) guest_window_state).1 =
        min (List.replicate 11 (100 : Int)).length
          (active_limit defaultSettings guest_window_state) ∧
      get_rate_limit_reset_time defaultSettings
          (run_increments defaultSettings (List.replicate 11 100) guest_window_state).2 =
        some (0 + window_duration defaultSettings) ∧
      (∀ (g : Bool) (now : Int) (u : Nat) (s2 : SessionState),
        s2.rate_limit_start = some 0 → ¬(now - 0 > window_duration defaultSettings) →
        s2.questions_used = some u → u < tier_limit defaultSettings g →
        (check_rate_limit defaultSettings g now s2).1 = true) ∧
      (∀ (now : Int) (s2 : SessionState),
        s2.rate_limit_start = some 0 → ¬(now - 0 > window_duration defaultSettings) →
        s2.questions_used = some (active_limit defaultSettings s2) →
        increment_rate_limit defaultSettings now s2 =
          (Except.error "Rate limit exceeded. Please try again later.", s2))) :=
  ⟨rfl, rfl, by decide,
   exact_limit_reservations defaultSettings 0 (List.replicate 11 100) guest_window_state
     rfl rfl (by decide)⟩

/-- C3: an expired window is reset lazily: any check performed at a
time now with now - windowStart strictly beyond the window duration
first sets count to 0 and windowStart to now and then evaluates the
request against the full quota, so it succeeds (for positive limits)
whatever the prior count; likewise a reservation attempt succeeds and
leaves count 1 in the window started at now. -/
theorem lazy_window_reset (st : Settings) (g : Bool) (now t0 : Int) (s : SessionState)
    (h0 : s.rate_limit_start = some t0)
    (h1 : now - t0 > window_duration st)
    (hanon : 0 < st.ANONYMOUS_RATE_LIMIT)
    (hauth : 0 < st.AUTHENTICATED_RATE_LIMIT) :
    check_rate_limit st g now s =
      (true, { s with rate_limit_start := some now, questions_used := some 0 }) ∧
    increment_rate_limit st now s =
      (Except.ok (), { s with rate_limit_start := some now, questions_used := some 1 }) := by
  have hpos : ∀ b : Bool, 0 < tier_limit st b := by
    intro b
    cases b
    · exact hauth
    · exact hanon
  constructor
  · have hdec : decide (0 < tier_limit st g) = true := decide_eq_true (hpos g)
    rw [check_expired st g now t0 s h0 h1, hdec]
  · rw [increment_def st now s,
        check_expired st (s.guest_mode.getD true) now t0 s h0 h1]
    have hdec : (decide (0 < tier_limit st (s.guest_mode.getD true)),
        ({ s with rate_limit_start := some now, questions_used := some 0 } : SessionState)).1 = true :=
      decide_eq_true (hpos (s.guest_mode.getD true))
    rw [if_pos hdec]
    rfl

/-- Witness for C3: a guest window started at time 0 with seven
questions used, probed at time 4000 (past the 3600 second window). -/
theorem lazy_window_reset_witness :
    expired_window_state.rate_limit_start = some 0 ∧
    ((4000 : Int) - 0 > window_duration defaultSettings) ∧
    0 < defaultSettings.ANONYMOUS_RATE_LIMIT ∧
    0 < defaultSettings.AUTHENTICATED_RATE_LIMIT ∧
    (check_rate_limit defaultSettings true 4000 expired_window_state =
      (true, { expired_window_state with
          rate_limit_start := some 4000,
          questions_used := some 0 }) ∧
     increment_rate_limit defaultSettings 4000 expired_window_state =
      (Except.ok (), { expired_window_state with
          rate_limit_start := some 4000,
          questions_used := some 1 })) :=
  ⟨rfl, by decide, by decide, by decide,
   lazy_window_reset defaultSettings true 4000 0 expired_window_state rfl
     (by decide) (by decide) (by decide)⟩

/-- C4 counterexample: with the external chat call failing, the
questions-used counter is not incremented (it stays at 0 from the
concrete state chat_state), while the same submit with a successful
call does increment it — refuting the claim that a failed exchange
still consumes quota exactly as a successful one. -/
theorem quota_on_failure_counterexample :
    (handle_user_input "hi" true (Except.error "boom") "uuid-2" chat_state).questions_used ≠
      some 1 ∧
    (handle_user_input "hi" true (Except.ok "resp") "uuid-2" chat_state).questions_used =
      some 1 := by
  constructor
  · decide
  · rfl

/-- C4 amended: quota is spent only on success. For every submit, when
the downstream chat call raises the counter is left unchanged, and
when it succeeds the counter is incremented by one. -/
theorem quota_spent_only_on_success (prompt : String) (g : Bool) (e resp fresh : String)
    (s : SessionState) :
    (handle_user_input prompt g (Except.error e) fresh s).questions_used =
      s.questions_used ∧
    (handle_user_input prompt g (Except.ok resp) fresh s).questions_used =
      some (s.questions_used.getD 0 + 1) := by
  unfold handle_user_input update_question_count
  cases hsid : s.session_id <;> simp [get_session_id, hsid]

/-- C5: the submit path performs no validation and no sanitization:
a whitespace-only prompt is stored verbatim instead of being rejected,
and a prompt containing a script tag is stored with the tag intact
instead of stripped.  (The repository's validate_message and
sanitize_html helpers are never invoked on this path.) -/
theorem submit_skips_validation :
    (handle_user_input "   " true (Except.ok "resp") "uuid-3" chat_state).messages =
      some [{ role := Role.user, content := "   " },
            { role := Role.assistant, content := "resp" }] ∧
    (handle_user_input "<script>alert(1)</script>hello" true (Except.ok "resp") "uuid-3"
        chat_state).messages =
      some [{ role := Role.user, content := "<script>alert(1)</script>hello" },
            { role := Role.assistant, content := "resp" }] :=
  ⟨rfl, rfl⟩

/-- C6: starting a new chat via the New Chat handler keeps the old
session id (get_session_id returns the stored id when one exists), for
any freshly drawn uuid, while reset_session — which the handler never
calls — would indeed install the fresh uuid. -/
theorem new_chat_reuses_session_id :
    (start_new_chat "fresh-uuid-4" hist_state).session_id = some "abc" ∧
    (start_new_chat "fresh-uuid-4" hist_state).messages = some [] ∧
    (reset_session "fresh-uuid-4" 0 hist_state).session_id = some "fresh-uuid-4" :=
  ⟨rfl, rfl, rfl⟩

/-- C7 counterexample: after a failed refresh from a fully logged-in
state, the access token is gone but the refresh_token key — credential
data — survives in the session state, refuting that the credential is
cleared entirely. -/
theorem refresh_failure_keeps_refresh_token :
    ((refresh_token_op none auth_state).2).user_token = none ∧
    ((refresh_token_op none auth_state).2).refresh_token ≠ none := by
  constructor
  · rfl
  · decide

/-- C7 amended: a refresh whose underlying Cognito call raises always
leaves a state with no access token and no username (never a partially
updated pair), but the stored refresh token key is not removed. -/
theorem refresh_failure_clears_access_and_username (s : SessionState) (r : String) :
    ((refresh_token_op none { s with refresh_token := some r }).2).user_token = none ∧
    ((refresh_token_op none { s with refresh_token := some r }).2).username = none ∧
    ((refresh_token_op none { s with refresh_token := some r }).2).refresh_token = some r :=
  ⟨rfl, rfl, rfl⟩

/-- C8: a 401 response to send_message does not clear the stored
access token — the raised error is the generic APIError produced by
raise_for_status, not the credential-invalidating path — although the
429 error is indeed a distinct RateLimitError, and the never-called
_handle_response_error helper would have cleared the token. -/
theorem unauthorized_keeps_token :
    (send_message (ApiOutcome.httpResponse 401 "") auth_state).2.user_token = some "tok" ∧
    (send_message (ApiOutcome.httpResponse 401 "") auth_state).1 =
      SendOutcome.apiErr "Failed to send message: HTTP 401" ∧
    (send_message (ApiOutcome.httpResponse 429 "") auth_state).1 =
      SendOutcome.rateLimit "Rate limit exceeded. Please try again later." ∧
    (handle_response_error 401 "Unauthorized" auth_state).2.user_token = none := by
  refine ⟨rfl, ?_, rfl, rfl⟩
  rfl

/-- C9: message append is append-only: running any sequence of
add_message_to_history calls from any state yields exactly the
original message list followed by the appended messages in call
order — nothing dropped, reordered or deleted. -/
theorem append_message_append_only (ms : List Message) (s : SessionState) :
    get_current_messages (add_messages ms s) = get_current_messages s ++ ms := by
  induction ms generalizing s with
  | nil => simp [add_messages]
  | cons m rest ih =>
    have h : add_messages (m :: rest) s = add_messages rest (add_message_to_history m s) :=
      rfl
    rw [h, ih]
    simp [add_message_to_history, get_current_messages]

/-- C10: on the submit error path state is partially retained: the
user message appended before the chat call stays, no assistant message
is appended, the questions-used counter is unchanged, and the history
is exactly one message longer than before the call. -/
theorem failed_submit_partial_state (prompt : String) (g : Bool) (e fresh : String)
    (s : SessionState) :
    (handle_user_input prompt g (Except.error e) fresh s).messages =
      some (s.messages.getD [] ++ [{ role := Role.user, content := prompt }]) ∧
    (handle_user_input prompt g (Except.error e) fresh s).questions_used =
      s.questions_used ∧
    ((handle_user_input prompt g (Except.error e) fresh s).messages.getD []).length =
      (s.messages.getD []).length + 1 := by
  unfold handle_user_input
  cases hsid : s.session_id <;> simp [get_session_id, hsid]
